import Mathlib

/-!
Shallow embedding of the 3D-Elevation-Cross-Section pipeline
(src/main.py, src/ElevationPlot/data_manager.py).

Modelling conventions:
- Python floats are modelled as rationals; the textual encoding of numbers
  in CSV cells and request URLs is modelled by the numbers themselves
  (Python str/float round-trips a float exactly).
- The local data directory is modelled as a map from plot names to the list
  of (lat, lng, elevation) rows of the stored CSV file; the constant header
  row written by store_plot and skipped by load_data is implicit.
- The HTTP transport is modelled as a function from the global count of
  _get calls already made, and the batch of coordinates of the request URL,
  to a Response: ok carries the results list of a well-formed dict
  response; err stands for any non-dict outcome (a non-200 status code, or
  a 200 body that is not a dict), whose payload fetch never inspects.
- Python exceptions are modelled by an error sum: timeoutError is the
  TimeoutError raised when the retry budget is exhausted, valueError the
  ValueError raised on a missing elevation, invalidArg the ValueError that
  numpy linspace raises for a negative number of samples.
-/

namespace ElevationPlot

/-- Rows of a stored CSV file: one (lat, lng, elevation) triple per data row. -/
def FileRows := List (ℚ × ℚ × ℚ)

/-- The data directory: maps a plot name to the stored file rows, none when
no file with that name exists. -/
def FS := String → Option FileRows

/-- Rows written by store_plot: for i in range(len(X)) the row
[X[i], Y[i], Z[i]]; store_plot only writes when the three lists have equal
length, where this is the elementwise pairing of the lists. -/
def toRows : List ℚ → List ℚ → List ℚ → FileRows
  | x :: xs, y :: ys, z :: zs => (x, y, z) :: toRows xs ys zs
  | _, _, _ => []

/-- data_manager.store_plot: when the three lists have equal lengths and
(overwrite or no file for plot_name exists) it writes the rows and returns
True, otherwise it changes nothing and returns False. The Python default
for overwrite is True. The updated data directory is returned alongside
the flag. -/
def store_plot (X Y Z : List ℚ) (plot_name : String) (overwrite : Bool) (fs : FS) : Bool × FS :=
  if X.length = Y.length ∧ Y.length = Z.length then
    if overwrite || (fs plot_name).isNone then
      (true, fun n => if n = plot_name then some (toRows X Y Z) else fs n)
    else (false, fs)
  else (false, fs)

/-- data_manager.load_data: returns the three columns of the stored file for
plot_name (skipping the header row), or none when no such file exists
(the Python function returns None). -/
def load_data (plot_name : String) (fs : FS) : Option (List ℚ × List ℚ × List ℚ) :=
  match fs plot_name with
  | some rows => some (rows.map fun r => r.1, rows.map fun r => r.2.1, rows.map fun r => r.2.2)
  | none => none

theorem toRows_map_fst : ∀ X Y Z : List ℚ, X.length = Y.length → Y.length = Z.length →
    (toRows X Y Z).map (fun r => r.1) = X
  | [], [], [], _, _ => rfl
  | x :: xs, y :: ys, z :: zs, hxy, hyz => by
    simp only [toRows, List.map_cons, List.cons.injEq, true_and]
    exact toRows_map_fst xs ys zs (by simpa using hxy) (by simpa using hyz)
  | [], y :: ys, _, hxy, _ => by simp at hxy
  | x :: xs, [], _, hxy, _ => by simp at hxy
  | x :: xs, y :: ys, [], _, hyz => by simp at hyz

theorem toRows_map_snd : ∀ X Y Z : List ℚ, X.length = Y.length → Y.length = Z.length →
    (toRows X Y Z).map (fun r => r.2.1) = Y
  | [], [], [], _, _ => rfl
  | x :: xs, y :: ys, z :: zs, hxy, hyz => by
    simp only [toRows, List.map_cons, List.cons.injEq, true_and]
    exact toRows_map_snd xs ys zs (by simpa using hxy) (by simpa using hyz)
  | [], y :: ys, _, hxy, _ => by simp at hxy
  | x :: xs, [], _, hxy, _ => by simp at hxy
  | x :: xs, y :: ys, [], _, hyz => by simp at hyz

theorem toRows_map_thd : ∀ X Y Z : List ℚ, X.length = Y.length → Y.length = Z.length →
    (toRows X Y Z).map (fun r => r.2.2) = Z
  | [], [], [], _, _ => rfl
  | x :: xs, y :: ys, z :: zs, hxy, hyz => by
    simp only [toRows, List.map_cons, List.cons.injEq, true_and]
    exact toRows_map_thd xs ys zs (by simpa using hxy) (by simpa using hyz)
  | [], y :: ys, _, hxy, _ => by simp at hxy
  | x :: xs, [], _, hxy, _ => by simp at hxy
  | x :: xs, y :: ys, [], _, hyz => by simp at hyz

/-- C5: storing three equal-length columns under a name with overwrite true
succeeds, and loading that name afterwards returns exactly the stored
columns (the model works in exact rational arithmetic, so equality holds
outright, in particular within floating-point tolerance). -/
theorem store_load_roundtrip (X Y Z : List ℚ) (plot_name : String) (fs : FS)
    (hxy : X.length = Y.length) (hyz : Y.length = Z.length) :
    (store_plot X Y Z plot_name true fs).1 = true ∧
    load_data plot_name (store_plot X Y Z plot_name true fs).2 = some (X, Y, Z) := by
  have hcond : (X.length = Y.length ∧ Y.length = Z.length) := ⟨hxy, hyz⟩
  constructor
  · simp [store_plot, hcond]
  · simp only [store_plot, if_pos hcond, Bool.true_or, if_pos rfl, load_data]
    simp [toRows_map_fst X Y Z hxy hyz, toRows_map_snd X Y Z hxy hyz,
      toRows_map_thd X Y Z hxy hyz]

/-- Witness for store_load_roundtrip at a concrete dataset and empty data
directory. -/
theorem store_load_roundtrip_witness :
    (store_plot [1] [2] [3] (([] : List Char).asString) true (fun _ => none)).1 = true ∧
    load_data (([] : List Char).asString) (store_plot [1] [2] [3] (([] : List Char).asString) true (fun _ => none)).2 =
      some ([1], [2], [3]) :=
  store_load_roundtrip [1] [2] [3] (([] : List Char).asString) (fun _ => none) rfl rfl

/-- C7: calling store_plot with overwrite false on a name that already has a
stored record returns false and leaves the data directory (in particular
that record) unchanged. -/
theorem store_no_overwrite_preserves (X Y Z : List ℚ) (plot_name : String) (fs : FS)
    (h : (fs plot_name).isSome) :
    store_plot X Y Z plot_name false fs = (false, fs) := by
  have hn : (fs plot_name).isNone = false := by
    cases hfs : fs plot_name with
    | none => rw [hfs] at h; simp [Option.isSome] at h
    | some v => simp [Option.isNone]
  unfold store_plot
  by_cases hlen : X.length = Y.length ∧ Y.length = Z.length
  · simp [hlen, hn]
  · simp [hlen]

/-- Witness for store_no_overwrite_preserves at a directory holding one
record. -/
theorem store_no_overwrite_preserves_witness :
    store_plot [9] [9] [9] (([] : List Char).asString) false (fun _ => some [(1, 2, 3)]) =
      (false, fun _ => some [(1, 2, 3)]) :=
  store_no_overwrite_preserves [9] [9] [9] (([] : List Char).asString) (fun _ => some [(1, 2, 3)]) rfl

/-- C10: when the three lists do not all have equal length, store_plot
writes nothing and returns false, whatever the overwrite flag. -/
theorem store_unequal_lengths_noop (X Y Z : List ℚ) (plot_name : String)
    (overwrite : Bool) (fs : FS)
    (h : ¬(X.length = Y.length ∧ Y.length = Z.length)) :
    store_plot X Y Z plot_name overwrite fs = (false, fs) := by
  unfold store_plot
  simp [h]

/-- Witness for store_unequal_lengths_noop: two points in X, one in Y and Z,
with overwrite true. -/
theorem store_unequal_lengths_noop_witness :
    store_plot [1, 1] [2] [3] (([] : List Char).asString) true (fun _ => none) = (false, fun _ => none) :=
  store_unequal_lengths_noop [1, 1] [2] [3] (([] : List Char).asString) true (fun _ => none) (by simp)

/-- Errors raised by the pipeline: invalidArg is the ValueError that numpy
linspace raises on a negative sample count, timeoutError the TimeoutError
raised when the retry budget is exhausted, valueError the ValueError
raised on a missing elevation (and on an unknown API_call mode). -/
inductive Err
  | invalidArg
  | timeoutError
  | valueError
  deriving DecidableEq

/-- Coordinates as carried through the pipeline: a (lat-like, lng-like)
pair. The Python code carries them as decimal strings solely to build the
request URL; the embedding carries the numeric values, which the string
conversion represents exactly. -/
abbrev Coord := ℚ × ℚ

/-- Python round to the nearest integer with ties to even (the semantics of
the builtin round on an exact value). -/
def pyRound (q : ℚ) : ℤ :=
  if q - ⌊q⌋ < 1 / 2 then ⌊q⌋
  else if 1 / 2 < q - ⌊q⌋ then ⌊q⌋ + 1
  else if 2 ∣ ⌊q⌋ then ⌊q⌋ else ⌊q⌋ + 1

/-- round(x, 7) as applied by fetch_format_from_to to the interpolated x
values. -/
def round7 (q : ℚ) : ℚ := (pyRound (q * 10000000) : ℚ) / 10000000

/-- The i-th sample of np.linspace(a, b, num). At num = 1 the rational
division by zero yields zero, so the single sample is a, matching numpy
single-sample case. -/
def linTerm (a b : ℚ) (num : ℤ) (i : ℕ) : ℚ := a + i * (b - a) / ((num : ℚ) - 1)

/-- np.linspace(a, b, num) with the default endpoint=True: raises
(ValueError) for a negative number of samples, else returns the num evenly
spaced samples from a to b inclusive. -/
def linspace (a b : ℚ) (num : ℤ) : Except Err (List ℚ) :=
  if num < 0 then .error .invalidArg
  else .ok ((List.range num.toNat).map (linTerm a b num))

/-- Body of the outer loop of fetch_format_from_to: for one y from the
vertical linspace, extend the accumulated list with
(str(round(x, 7)), str(y)) for each x of the horizontal linspace. The
horizontal linspace is evaluated inside the loop body, so its error is
only raised when the outer loop runs at least once. -/
def gridStep (from_coords to_coords : ℚ × ℚ) (horizontal_data_points : ℤ)
    (acc : Except Err (List Coord)) (y : ℚ) : Except Err (List Coord) :=
  match acc with
  | .error e => .error e
  | .ok l =>
    match linspace from_coords.1 to_coords.1 horizontal_data_points with
    | .error e => .error e
    | .ok xs => .ok (l ++ xs.map fun x => ((round7 x, y) : Coord))

/-- data_manager.fetch_format_from_to: for y in np.linspace(from[1], to[1],
vertical_data_points), extend the result with (str(round(x, 7)), str(y))
for x in np.linspace(from[0], to[0], horizontal_data_points). -/
def fetch_format_from_to (from_coords to_coords : ℚ × ℚ)
    (horizontal_data_points vertical_data_points : ℤ) : Except Err (List Coord) :=
  match linspace from_coords.2 to_coords.2 vertical_data_points with
  | .error e => .error e
  | .ok ys => ys.foldl (gridStep from_coords to_coords horizontal_data_points) (.ok [])

/-- data_manager.fetch_format_around: derives the two corners from the
center point by a symmetric offset of half the width and height, then
delegates to fetch_format_from_to. -/
def fetch_format_around (center_coords : ℚ × ℚ)
    (horizontal_data_points vertical_data_points : ℤ) (width height : ℚ) :
    Except Err (List Coord) :=
  fetch_format_from_to
    (center_coords.1 - width / 2, center_coords.2 - height / 2)
    (center_coords.1 + width / 2, center_coords.2 + height / 2)
    horizontal_data_points vertical_data_points

theorem gridStep_foldl_error (fc tc : ℚ × ℚ) (nx : ℤ) (e : Err) :
    ∀ ys : List ℚ, ys.foldl (gridStep fc tc nx) (.error e) = .error e
  | [] => rfl
  | y :: ys => by
    rw [List.foldl_cons]
    exact gridStep_foldl_error fc tc nx e ys

theorem gridStep_foldl_ok (fc tc : ℚ × ℚ) (nx : ℤ) (xs : List ℚ)
    (hx : linspace fc.1 tc.1 nx = .ok xs) :
    ∀ (ys : List ℚ) (acc : List Coord),
      ys.foldl (gridStep fc tc nx) (.ok acc) =
        .ok (acc ++ ys.flatMap fun y => xs.map fun x => ((round7 x, y) : Coord))
  | [], acc => by simp
  | y :: ys, acc => by
    rw [List.foldl_cons]
    show List.foldl (gridStep fc tc nx) (gridStep fc tc nx (.ok acc) y) ys = _
    rw [show gridStep fc tc nx (.ok acc) y =
        .ok (acc ++ xs.map fun x => ((round7 x, y) : Coord)) by
      simp [gridStep, hx]]
    rw [gridStep_foldl_ok fc tc nx xs hx ys (acc ++ xs.map fun x => ((round7 x, y) : Coord))]
    simp [List.flatMap_cons]

theorem fetch_format_from_to_eq (fc tc : ℚ × ℚ) (nx ny : ℤ) (xs ys : List ℚ)
    (hx : linspace fc.1 tc.1 nx = .ok xs) (hy : linspace fc.2 tc.2 ny = .ok ys) :
    fetch_format_from_to fc tc nx ny =
      .ok (ys.flatMap fun y => xs.map fun x => ((round7 x, y) : Coord)) := by
  unfold fetch_format_from_to
  rw [hy]
  show ys.foldl (gridStep fc tc nx) (.ok []) = _
  rw [gridStep_foldl_ok fc tc nx xs hx ys []]
  simp

theorem linspace_ok (a b : ℚ) (n : ℤ) (hn : 0 ≤ n) :
    ∃ xs : List ℚ, linspace a b n = .ok xs ∧ xs.length = n.toNat ∧
      ∀ i (h : i < xs.length), xs.get ⟨i, h⟩ = linTerm a b n i := by
  refine ⟨(List.range n.toNat).map (linTerm a b n),
    by simp [linspace, not_lt.mpr hn], by simp, ?_⟩
  intro i h
  simp [List.get_eq_getElem]

theorem flatMap_block_length {α β γ : Type} (xs : List α) (g : α → β → γ) :
    ∀ ys : List β, (ys.flatMap fun y => xs.map fun x => g x y).length = ys.length * xs.length
  | [] => by simp
  | y :: ys => by
    rw [List.flatMap_cons]
    simp only [List.length_append, List.length_map, flatMap_block_length xs g ys,
      List.length_cons, Nat.succ_mul]
    exact Nat.add_comm _ _

theorem flatMap_block_get {α β γ : Type} (xs : List α) (g : α → β → γ) :
    ∀ (ys : List β) (j i : ℕ) (hi : i < xs.length) (hj : j < ys.length),
      (ys.flatMap fun y => xs.map fun x => g x y)[j * xs.length + i]? =
        some (g (xs.get ⟨i, hi⟩) (ys.get ⟨j, hj⟩))
  | [], j, i, hi, hj => absurd hj (by simp)
  | y :: ys, 0, i, hi, hj => by
    rw [List.flatMap_cons]
    have h0 : 0 * xs.length + i = i := by omega
    rw [h0]
    rw [List.getElem?_append, if_pos (by simpa using hi)]
    simp [List.getElem?_map, List.getElem?_eq_getElem hi]
  | y :: ys, j + 1, i, hi, hj => by
    rw [List.flatMap_cons]
    have hlen : (xs.map fun x => g x y).length ≤ (j + 1) * xs.length + i := by
      rw [List.length_map, Nat.succ_mul]
      generalize j * xs.length = m
      omega
    rw [List.getElem?_append_right hlen]
    have hidx : (j + 1) * xs.length + i - (xs.map fun x => g x y).length =
        j * xs.length + i := by
      rw [List.length_map, Nat.succ_mul]
      generalize j * xs.length = m
      omega
    rw [hidx]
    exact flatMap_block_get xs g ys j i hi (by simpa using hj)

theorem linTerm_zero (a b : ℚ) (n : ℤ) : linTerm a b n 0 = a := by
  simp [linTerm]

theorem linTerm_last (a b : ℚ) (n : ℤ) (hn : 2 ≤ n) :
    linTerm a b n (n.toNat - 1) = b := by
  have h1 : (1 : ℕ) ≤ n.toNat := by omega
  have hcast : ((n.toNat - 1 : ℕ) : ℚ) = (n : ℚ) - 1 := by
    have h2 : ((n.toNat : ℤ) : ℚ) = (n : ℚ) := by
      rw [Int.toNat_of_nonneg (by omega)]
    push_cast [Nat.cast_sub h1]
    push_cast at h2
    rw [h2]
  have hne : (n : ℚ) - 1 ≠ 0 := by
    have : (2 : ℚ) ≤ (n : ℚ) := by exact_mod_cast hn
    linarith
  unfold linTerm
  rw [hcast, mul_comm, mul_div_assoc, div_self hne, mul_one]
  ring

/-- C2: for corner coordinates and counts nx, ny >= 1, the corridor grid
generator succeeds with exactly nx * ny coordinate pairs in row-major
order: the entry at index j * nx + i is the i-th horizontal sample paired
with the j-th vertical sample (each dimension the linear interpolation
linTerm, the horizontal value rounded to 7 decimal places for the URL),
the first nx entries all share the starting vertical value as their second
component, and each dimension starts at its from endpoint and (for counts
at least 2) ends at its to endpoint. -/
theorem fetch_format_from_to_grid_spec (fc tc : ℚ × ℚ) (nx ny : ℤ)
    (hnx : 1 ≤ nx) (hny : 1 ≤ ny) :
    ∃ g : List Coord,
      fetch_format_from_to fc tc nx ny = .ok g ∧
      g.length = nx.toNat * ny.toNat ∧
      (∀ i j, i < nx.toNat → j < ny.toNat →
        g[j * nx.toNat + i]? =
          some (round7 (linTerm fc.1 tc.1 nx i), linTerm fc.2 tc.2 ny j)) ∧
      (∀ k, k < nx.toNat → (g[k]?).map Prod.snd = some fc.2) ∧
      linTerm fc.1 tc.1 nx 0 = fc.1 ∧ linTerm fc.2 tc.2 ny 0 = fc.2 ∧
      (2 ≤ nx → linTerm fc.1 tc.1 nx (nx.toNat - 1) = tc.1) ∧
      (2 ≤ ny → linTerm fc.2 tc.2 ny (ny.toNat - 1) = tc.2) := by
  obtain ⟨xs, hx, hxlen, hxget⟩ := linspace_ok fc.1 tc.1 nx (by omega)
  obtain ⟨ys, hy, hylen, hyget⟩ := linspace_ok fc.2 tc.2 ny (by omega)
  refine ⟨ys.flatMap fun y => xs.map fun x => ((round7 x, y) : Coord),
    fetch_format_from_to_eq fc tc nx ny xs ys hx hy, ?_, ?_, ?_, linTerm_zero _ _ _,
    linTerm_zero _ _ _, linTerm_last fc.1 tc.1 nx, linTerm_last fc.2 tc.2 ny⟩
  · rw [flatMap_block_length xs (fun x y => ((round7 x, y) : Coord)) ys, hxlen, hylen]
    exact Nat.mul_comm _ _
  · intro i j hi hj
    have hi2 : i < xs.length := by rw [hxlen]; exact hi
    have hj2 : j < ys.length := by rw [hylen]; exact hj
    have hg := flatMap_block_get xs (fun x y => ((round7 x, y) : Coord)) ys j i hi2 hj2
    rw [← hxlen]
    rw [hg, hxget i hi2, hyget j hj2]
  · intro k hk
    have hk2 : k < xs.length := by rw [hxlen]; exact hk
    have hj2 : (0 : ℕ) < ys.length := by rw [hylen]; omega
    have hg := flatMap_block_get xs (fun x y => ((round7 x, y) : Coord)) ys 0 k hk2 hj2
    rw [Nat.zero_mul, Nat.zero_add] at hg
    rw [hg, hyget 0 hj2, linTerm_zero]
    rfl

/-- Witness for fetch_format_from_to_grid_spec at the unit square with a
2 by 2 grid. -/
theorem fetch_format_from_to_grid_spec_witness :
    ∃ g : List Coord,
      fetch_format_from_to (0, 0) (1, 1) 2 2 = .ok g ∧
      g.length = (2 : ℤ).toNat * (2 : ℤ).toNat ∧
      (∀ i j, i < (2 : ℤ).toNat → j < (2 : ℤ).toNat →
        g[j * (2 : ℤ).toNat + i]? =
          some (round7 (linTerm 0 1 2 i), linTerm 0 1 2 j)) ∧
      (∀ k, k < (2 : ℤ).toNat → (g[k]?).map Prod.snd = some 0) ∧
      linTerm 0 1 2 0 = 0 ∧ linTerm 0 1 2 0 = 0 ∧
      (2 ≤ (2 : ℤ) → linTerm 0 1 2 ((2 : ℤ).toNat - 1) = 1) ∧
      (2 ≤ (2 : ℤ) → linTerm 0 1 2 ((2 : ℤ).toNat - 1) = 1) :=
  fetch_format_from_to_grid_spec (0, 0) (1, 1) 2 2 (by decide) (by decide)

/-- C8 counterexample: a vertical count of 0 does not raise; the generator
silently returns the empty coordinate sequence. -/
theorem grid_zero_count_silently_empty :
    fetch_format_from_to (0, 0) (1, 1) 1 0 = .ok [] := rfl

/-- C8 amended: only negative counts raise the numpy ValueError
(InvalidArgument analogue): a negative ny always raises, a negative nx
raises when ny >= 1; a zero ny, or a zero nx with nonnegative ny, silently
yields the empty coordinate sequence instead of failing. -/
theorem fetch_format_from_to_negative_counts (fc tc : ℚ × ℚ) (nx ny : ℤ) :
    (ny < 0 → fetch_format_from_to fc tc nx ny = .error .invalidArg) ∧
    (ny = 0 → fetch_format_from_to fc tc nx ny = .ok []) ∧
    (1 ≤ ny → nx < 0 → fetch_format_from_to fc tc nx ny = .error .invalidArg) ∧
    (0 ≤ ny → nx = 0 → fetch_format_from_to fc tc nx ny = .ok []) := by
  refine ⟨fun h => ?_, fun h => ?_, fun hy hx => ?_, fun hy hx => ?_⟩
  · simp [fetch_format_from_to, linspace, h]
  · simp [fetch_format_from_to, linspace, h]
  · have hy0 : (0 : ℤ) ≤ ny := by omega
    unfold fetch_format_from_to
    rw [show linspace fc.2 tc.2 ny = .ok ((List.range ny.toNat).map (linTerm fc.2 tc.2 ny)) by
      simp [linspace, not_lt.mpr hy0]]
    have hpos : 0 < ny.toNat := by omega
    cases hr : List.range ny.toNat with
    | nil =>
      have h0 : ny.toNat = 0 := List.range_eq_nil.mp hr
      omega
    | cons m ms =>
      show List.foldl (gridStep fc tc nx) (.ok [])
        (linTerm fc.2 tc.2 ny m :: ms.map (linTerm fc.2 tc.2 ny)) = .error .invalidArg
      rw [List.foldl_cons]
      rw [show gridStep fc tc nx (.ok []) (linTerm fc.2 tc.2 ny m) = .error .invalidArg by
        simp [gridStep, linspace, hx]]
      exact gridStep_foldl_error fc tc nx .invalidArg _
  · subst hx
    have hxok : linspace fc.1 tc.1 0 = .ok ([] : List ℚ) := by simp [linspace]
    unfold fetch_format_from_to
    rw [show linspace fc.2 tc.2 ny = .ok ((List.range ny.toNat).map (linTerm fc.2 tc.2 ny)) by
      simp [linspace, not_lt.mpr hy]]
    show List.foldl (gridStep fc tc 0) (.ok [])
      ((List.range ny.toNat).map (linTerm fc.2 tc.2 ny)) = .ok []
    rw [gridStep_foldl_ok fc tc 0 [] hxok]
    simp

/-- Witness for fetch_format_from_to_negative_counts at concrete counts:
negative counts raise, a zero horizontal count silently yields the empty
sequence. -/
theorem fetch_format_from_to_negative_counts_witness :
    fetch_format_from_to (0, 0) (1, 1) 1 (-1) = .error .invalidArg ∧
    fetch_format_from_to (0, 0) (1, 1) (-1) 2 = .error .invalidArg ∧
    fetch_format_from_to (0, 0) (1, 1) 0 2 = .ok [] :=
  ⟨(fetch_format_from_to_negative_counts (0, 0) (1, 1) 1 (-1)).1 (by decide),
   (fetch_format_from_to_negative_counts (0, 0) (1, 1) (-1) 2).2.2.1 (by decide) (by decide),
   (fetch_format_from_to_negative_counts (0, 0) (1, 1) 0 2).2.2.2 (by decide) rfl⟩

/-- One entry of the results list of a successful response: the queried
location and its elevation, which the provider reports as null (None) for
coordinates outside coverage. -/
structure ElevationResult where
  lat : ℚ
  lng : ℚ
  elevation : Option ℚ
  deriving DecidableEq

/-- Outcome of one _get call as fetch distinguishes it: ok is a well-formed
dict response carrying its results list; err is any non-dict outcome (a
non-200 status code returned as an int, or a 200 body that is not a
dict), whose payload fetch never inspects. -/
inductive Response
  | ok (results : List ElevationResult)
  | err

/-- The remote endpoint, as a function of the number of _get calls already
made in this fetch run and the batch of coordinates in the request URL. -/
abbrev Transport := Nat → List Coord → Response

/-- RETRIES constant of data_manager.py. -/
def RETRIES : Nat := 10

/-- The retry loop of fetch: up to fuel attempts of _get on the same batch,
stopping at the first dict response. Returns the list of batches queried
(one entry per _get call), the updated global call count, and the results
of the first dict response, none when every attempt returned a non-dict
(there the for-else of the loop raises TimeoutError). -/
def tryBatch (transport : Transport) (batch : List Coord) :
    Nat → Nat → List (List Coord) × Nat × Option (List ElevationResult)
  | calls, 0 => ([], calls, none)
  | calls, fuel + 1 =>
    match transport calls batch with
    | .ok results => ([batch], calls + 1, some results)
    | .err =>
      let r := tryBatch transport batch (calls + 1) fuel
      (batch :: r.1, r.2.1, r.2.2)

/-- Main loop of data_manager.fetch over the enumerated coordinates. The
current coordinate is appended to the pending batch first; when the index
is divisible by 100 the pending batch is sent (with up to RETRIES
attempts), validated to have no missing elevation, its results appended to
data, and the pending batch reset; otherwise the pending batch is carried
to the next coordinate. Alongside the Python return value or exception,
the embedding returns the list of batches sent to the transport. -/
def fetchGo (transport : Transport) :
    List Coord → Nat → List Coord → Nat → List ElevationResult →
      List (List Coord) × Except Err (List ElevationResult)
  | [], _, _, _, data => ([], .ok data)
  | coord :: rest, index, pending, calls, data =>
    let pending2 := pending ++ [coord]
    if index % 100 = 0 then
      match tryBatch transport pending2 calls RETRIES with
      | (log, _, none) => (log, .error .timeoutError)
      | (log, calls2, some results) =>
        if results.all (fun r => r.elevation.isSome) then
          let next := fetchGo transport rest (index + 1) [] calls2 (data ++ results)
          (log ++ next.1, next.2)
        else (log, .error .valueError)
    else
      fetchGo transport rest (index + 1) pending2 calls data

/-- data_manager.fetch: urls start empty, the enumeration at index 0, the
call counter (modelling time) at zero, the accumulated data empty. -/
def fetch (transport : Transport) (coords : List Coord) :
    List (List Coord) × Except Err (List ElevationResult) :=
  fetchGo transport coords 0 [] 0 []

/-- C1 (code bug): an all-success transport echoing every queried
coordinate with elevation 5 against the two-coordinate input
[(0, 0), (1, 1)]: the loop flushes a batch only at indices divisible by
100, so only the single batch [(0, 0)] is ever requested and the fetch
returns one elevation point for a two-coordinate input, instead of a
sequence of the length of the input. -/
theorem fetch_drops_trailing_coordinates :
    fetch (fun _ batch => Response.ok (batch.map fun c =>
        { lat := c.1, lng := c.2, elevation := some 5 }))
      [((0 : ℚ), (0 : ℚ)), ((1 : ℚ), (1 : ℚ))] =
      ([[((0 : ℚ), (0 : ℚ))]],
        .ok [{ lat := 0, lng := 0, elevation := some 5 }]) ∧
    ([{ lat := 0, lng := 0, elevation := some 5 }] : List ElevationResult).length ≠
      [((0 : ℚ), (0 : ℚ)), ((1 : ℚ), (1 : ℚ))].length := by
  exact ⟨rfl, by decide⟩

theorem tryBatch_all_err (transport : Transport) (batch : List Coord)
    (h : ∀ n b, transport n b = .err) :
    ∀ (fuel calls : ℕ), tryBatch transport batch calls fuel =
      (List.replicate fuel batch, calls + fuel, none)
  | 0, calls => by simp [tryBatch]
  | fuel + 1, calls => by
    rw [show tryBatch transport batch calls (fuel + 1) =
        (batch :: (tryBatch transport batch (calls + 1) fuel).1,
         (tryBatch transport batch (calls + 1) fuel).2.1,
         (tryBatch transport batch (calls + 1) fuel).2.2) by
      simp [tryBatch, h]]
    rw [tryBatch_all_err transport batch h fuel (calls + 1)]
    simp only [List.replicate_succ, Prod.mk.injEq, and_true, true_and]
    omega

/-- C3: from any state of the fetch loop about to flush a batch (the index
divisible by 100, any pending coordinates, call count and accumulated
data), a transport that returns a non-dict response on every attempt
makes the loop send exactly RETRIES requests, all for that one batch,
then raise the TimeoutError that plays the ServiceUnavailable role: the
fetch returns none of the already accumulated results and issues no
request for any further batch. Since fetch starts fetchGo at index 0 with
an empty pending batch, this covers every batch of a fetch run. -/
theorem fetch_all_err_timeout (transport : Transport) (c : Coord) (rest : List Coord)
    (index : ℕ) (pending : List Coord) (calls : ℕ) (data : List ElevationResult)
    (hidx : index % 100 = 0)
    (h : ∀ n b, transport n b = .err) :
    fetchGo transport (c :: rest) index pending calls data =
      (List.replicate RETRIES (pending ++ [c]), .error .timeoutError) := by
  simp only [fetchGo, if_pos hidx]
  rw [tryBatch_all_err transport (pending ++ [c]) h RETRIES calls]

/-- Witness for fetch_all_err_timeout: an always-failing transport on a
single-coordinate fetch (its only batch flushes at index 0). -/
theorem fetch_all_err_timeout_witness :
    fetch (fun _ _ => Response.err) [((0 : ℚ), (0 : ℚ))] =
      (List.replicate RETRIES [((0 : ℚ), (0 : ℚ))], .error .timeoutError) :=
  fetch_all_err_timeout (fun _ _ => Response.err) ((0 : ℚ), (0 : ℚ)) [] 0 [] 0 []
    rfl (fun _ _ => rfl)

/-- C4: from any state of the fetch loop about to flush a batch, when the
retry loop obtains a structurally successful (dict) response carrying at
least one point with a missing (None) elevation, the fetch raises the
ValueError that plays the InvalidResponse role: the only requests issued
are those the retry loop made up to that response (the batch is not
retried after it), no further batch is requested, and none of the
accumulated results are returned. Since fetch starts fetchGo at index 0
with an empty pending batch, this covers every batch of a fetch run. -/
theorem fetch_missing_elevation_value_error (transport : Transport) (c : Coord)
    (rest : List Coord) (index : ℕ) (pending : List Coord) (calls : ℕ)
    (data : List ElevationResult) (log2 : List (List Coord)) (calls2 : ℕ)
    (results : List ElevationResult)
    (hidx : index % 100 = 0)
    (ht : tryBatch transport (pending ++ [c]) calls RETRIES = (log2, calls2, some results))
    (h2 : ∃ r ∈ results, r.elevation = none) :
    fetchGo transport (c :: rest) index pending calls data = (log2, .error .valueError) := by
  have hall : results.all (fun r => r.elevation.isSome) = false := by
    rw [List.all_eq_false]
    obtain ⟨r, hr, hn⟩ := h2
    exact ⟨r, hr, by simp [hn]⟩
  simp only [fetchGo, if_pos hidx]
  rw [ht]
  simp [hall]

/-- Witness for fetch_missing_elevation_value_error: a transport whose
first response carries one point with a missing elevation, on a
single-coordinate fetch. -/
theorem fetch_missing_elevation_value_error_witness :
    fetch (fun _ _ => Response.ok [{ lat := 0, lng := 0, elevation := none }])
      [((0 : ℚ), (0 : ℚ))] = ([[((0 : ℚ), (0 : ℚ))]], .error .valueError) :=
  fetch_missing_elevation_value_error
    (fun _ _ => Response.ok [{ lat := 0, lng := 0, elevation := none }])
    ((0 : ℚ), (0 : ℚ)) [] 0 [] 0 [] [[((0 : ℚ), (0 : ℚ))]] 1
    [{ lat := 0, lng := 0, elevation := none }] rfl rfl
    ⟨{ lat := 0, lng := 0, elevation := none }, by simp, rfl⟩

/-- data_manager.plot_format: splits the response dictionaries into the
three parallel coordinate lists. The z column reads the elevation entries;
fetch only hands over results whose elevation is present, so the default
value of the Option projection is never reached on fetch output. -/
def plot_format (response : List ElevationResult) : List ℚ × List ℚ × List ℚ :=
  (response.map fun r => r.lat, response.map fun r => r.lng,
    response.map fun r => r.elevation.getD 0)

/-- The two entries of the MODES list of data_manager.py. An invalid mode
string makes API_call raise ValueError; this type makes that branch
unrepresentable, and no claim concerns it. -/
inductive Mode
  | from_to
  | around

/-- data_manager.API_call: format the coordinates according to the mode
(the Python kwargs are passed as explicit parameters; the from and to
corners are only read in from_to mode, the center, width and height only
in around mode), fetch the elevation data, and format it for plotting.
The batches sent to the transport are returned alongside. -/
def API_call (mode : Mode) (from_coords to_coords center_coords : ℚ × ℚ)
    (horizontal_data_points vertical_data_points : ℤ) (width height : ℚ)
    (transport : Transport) :
    List (List Coord) × Except Err (List ℚ × List ℚ × List ℚ) :=
  match (match mode with
    | .from_to => fetch_format_from_to from_coords to_coords
        horizontal_data_points vertical_data_points
    | .around => fetch_format_around center_coords
        horizontal_data_points vertical_data_points width height) with
  | .error e => ([], .error e)
  | .ok formatted_coords =>
    match fetch transport formatted_coords with
    | (log, .error e) => (log, .error e)
    | (log, .ok response) => (log, .ok (plot_format response))

/-- src/main.py, parametrized over the plot name (mt_st_helens in the
script) and the around-mode arguments (center (46.1914, -122.1956), 50 by
50 points, width and height 0.075 there): load the saved data when a file
exists (a loaded triple is always truthy in Python), otherwise call the
API in around mode and store the result under the name with the default
overwrite=True. The batches sent to the transport are returned alongside
the resulting dataset and data directory. -/
def main (plot_name : String) (center_coords : ℚ × ℚ)
    (horizontal_data_points vertical_data_points : ℤ) (width height : ℚ)
    (transport : Transport) (fs : FS) :
    List (List Coord) × Except Err ((List ℚ × List ℚ × List ℚ) × FS) :=
  match load_data plot_name fs with
  | some coords => ([], .ok (coords, fs))
  | none =>
    match API_call .around (0, 0) (0, 0) center_coords horizontal_data_points
        vertical_data_points width height transport with
    | (log, .error e) => (log, .error e)
    | (log, .ok (X, Y, Z)) => (log, .ok ((X, Y, Z), (store_plot X Y Z plot_name true fs).2))

/-- C6: pipeline orchestration. On a cache hit the pipeline returns the
loaded dataset unchanged with the unchanged data directory and sends no
batch request. On a miss, when grid generation and the fetch of the
generated coordinates succeed, the pipeline returns exactly the formatted
fetch output, and the data directory updated by store_plot of that
dataset under the plot name with overwrite true. -/
theorem main_cache_hit_miss (plot_name : String) (center_coords : ℚ × ℚ)
    (hdp vdp : ℤ) (width height : ℚ) (transport : Transport) (fs : FS) :
    (∀ d, load_data plot_name fs = some d →
      main plot_name center_coords hdp vdp width height transport fs =
        ([], .ok (d, fs))) ∧
    (load_data plot_name fs = none →
      ∀ coords log response,
        fetch_format_around center_coords hdp vdp width height = .ok coords →
        fetch transport coords = (log, .ok response) →
        main plot_name center_coords hdp vdp width height transport fs =
          (log, .ok (plot_format response,
            (store_plot (plot_format response).1 (plot_format response).2.1
              (plot_format response).2.2 plot_name true fs).2))) := by
  constructor
  · intro d hd
    unfold main
    rw [hd]
  · intro hmiss coords log response hgrid hfetch
    have hapi : API_call .around (0, 0) (0, 0) center_coords hdp vdp width height transport =
        (log, .ok (plot_format response)) := by
      unfold API_call
      simp only []
      rw [hgrid]
      simp only []
      rw [hfetch]
    unfold main
    rw [hmiss, hapi]

theorem round7_zero : round7 0 = 0 := by
  unfold round7 pyRound
  norm_num

theorem linspace_zero_one : linspace (0 : ℚ) 0 1 = .ok [0] := by
  unfold linspace
  rw [if_neg (by omega)]
  simp [List.range_succ, linTerm_zero]

theorem fetch_format_around_zero :
    fetch_format_around (0, 0) 1 1 0 0 = .ok [((0 : ℚ), (0 : ℚ))] := by
  unfold fetch_format_around
  rw [show ((0 : ℚ) - 0 / 2, (0 : ℚ) - 0 / 2) = ((0 : ℚ), (0 : ℚ)) by norm_num,
    show ((0 : ℚ) + 0 / 2, (0 : ℚ) + 0 / 2) = ((0 : ℚ), (0 : ℚ)) by norm_num]
  rw [fetch_format_from_to_eq (0, 0) (0, 0) 1 1 [0] [0] linspace_zero_one linspace_zero_one]
  simp [round7_zero]

/-- Witness for main_cache_hit_miss: the hit branch on a directory holding
one record, and the miss branch on an empty directory with a transport
whose single response carries elevation 7. -/
theorem main_cache_hit_miss_witness :
    main (([] : List Char).asString) (0, 0) 1 1 0 0
        (fun _ _ => Response.ok [{ lat := 0, lng := 0, elevation := some 7 }])
        (fun _ => some [(1, 2, 3)]) =
      ([], .ok (([1], [2], [3]), fun _ => some [(1, 2, 3)])) ∧
    main (([] : List Char).asString) (0, 0) 1 1 0 0
        (fun _ _ => Response.ok [{ lat := 0, lng := 0, elevation := some 7 }])
        (fun _ => none) =
      ([[((0 : ℚ), (0 : ℚ))]],
        .ok (plot_format [{ lat := 0, lng := 0, elevation := some 7 }],
          (store_plot (plot_format [{ lat := 0, lng := 0, elevation := some 7 }]).1
            (plot_format [{ lat := 0, lng := 0, elevation := some 7 }]).2.1
            (plot_format [{ lat := 0, lng := 0, elevation := some 7 }]).2.2
            (([] : List Char).asString) true (fun _ => none)).2)) :=
  ⟨(main_cache_hit_miss (([] : List Char).asString) (0, 0) 1 1 0 0
      (fun _ _ => Response.ok [{ lat := 0, lng := 0, elevation := some 7 }])
      (fun _ => some [(1, 2, 3)])).1 ([1], [2], [3]) rfl,
   (main_cache_hit_miss (([] : List Char).asString) (0, 0) 1 1 0 0
      (fun _ _ => Response.ok [{ lat := 0, lng := 0, elevation := some 7 }])
      (fun _ => none)).2 rfl [((0 : ℚ), (0 : ℚ))] [[((0 : ℚ), (0 : ℚ))]]
      [{ lat := 0, lng := 0, elevation := some 7 }] fetch_format_around_zero rfl⟩

end ElevationPlot
